import Mathlib

/-!
Verification of the Aadhaar Sanket analytics engines.

This file gives a shallow embedding, over exact rationals, of the scalar
classifiers and dataframe pipelines found in `backend/config.py`,
`backend/engines/mvi.py`, `backend/engines/anomaly.py`,
`backend/engines/trend_typology.py`, `backend/engines/policy_mapper.py`
and `backend/engines/signal_separation.py`, and proves the behavioural
properties stated about them.  Python floats are idealised as `ℚ`
(decimal literals become exact rationals); polars dataframes become
typed lists of rows whose fields are the documented columns.
-/

namespace AadhaarSanket

/-! ### Configuration constants (backend/config.py) -/

/-- MVI_THRESHOLDS["stable"]: MVI < 5 = stable zone. -/
def MVI_THRESHOLDS_stable : ℚ := 5

/-- MVI_THRESHOLDS["moderate"]: 5 <= MVI < 15 = moderate inflow. -/
def MVI_THRESHOLDS_moderate : ℚ := 15

/-- MVI_THRESHOLDS["elevated"]: 15 <= MVI < 30 = elevated inflow. -/
def MVI_THRESHOLDS_elevated : ℚ := 30

/-- CONFIDENCE_THRESHOLDS["high"]: population > 100K = high confidence. -/
def CONFIDENCE_THRESHOLDS_high : ℤ := 100000

/-- CONFIDENCE_THRESHOLDS["medium"]: 50K < population <= 100K = medium. -/
def CONFIDENCE_THRESHOLDS_medium : ℤ := 50000

/-- SIGNAL_WEIGHTS["demographic_adult"] = 1.0. -/
def SIGNAL_WEIGHTS_demographic_adult : ℚ := 1

/-- SIGNAL_WEIGHTS["demographic_youth"] = 0.6. -/
def SIGNAL_WEIGHTS_demographic_youth : ℚ := 3/5

/-- SIGNAL_WEIGHTS["demographic_child"] = 0.4. -/
def SIGNAL_WEIGHTS_demographic_child : ℚ := 2/5

/-- SIGNAL_WEIGHTS["biometric_adult"] = 0.3. -/
def SIGNAL_WEIGHTS_biometric_adult : ℚ := 3/10

/-- SIGNAL_WEIGHTS["biometric_child_5"] = 0.1. -/
def SIGNAL_WEIGHTS_biometric_child_5 : ℚ := 1/10

/-- ANOMALY_CONFIG["rolling_window"] = 30. -/
def ANOMALY_CONFIG_rolling_window : ℕ := 30

/-- ANOMALY_CONFIG["z_threshold_critical"] = 4.0. -/
def ANOMALY_CONFIG_z_threshold_critical : ℚ := 4

/-- ANOMALY_CONFIG["z_threshold_high"] = 3.0. -/
def ANOMALY_CONFIG_z_threshold_high : ℚ := 3

/-- ANOMALY_CONFIG["z_threshold_medium"] = 2.0. -/
def ANOMALY_CONFIG_z_threshold_medium : ℚ := 2

/-- ANOMALY_CONFIG["z_threshold_low"] = 1.5. -/
def ANOMALY_CONFIG_z_threshold_low : ℚ := 3/2

/-- TREND_CONFIG["slope_high"] = 2.0. -/
def TREND_CONFIG_slope_high : ℚ := 2

/-- TREND_CONFIG["slope_moderate"] = 1.0. -/
def TREND_CONFIG_slope_moderate : ℚ := 1

/-- TREND_CONFIG["slope_decline"] = -0.5. -/
def TREND_CONFIG_slope_decline : ℚ := -1/2

/-- TREND_CONFIG["variance_high"] = 10.0. -/
def TREND_CONFIG_variance_high : ℚ := 10

/-- TREND_CONFIG["variance_low"] = 2.0. -/
def TREND_CONFIG_variance_low : ℚ := 2

/-- TREND_CONFIG["acceleration_threshold"] = 0.5. -/
def TREND_CONFIG_acceleration_threshold : ℚ := 1/2

/-! ### MVI engine scalar classifiers (backend/engines/mvi.py) -/

/-- `classify_zone` from mvi.py: zone classification based on the MVI value,
an if/elif cascade against `MVI_THRESHOLDS` returning the `ZONE_TYPES`
strings (which map each key to itself in config.py). -/
def classify_zone (mvi_value : ℚ) : String :=
  if mvi_value < MVI_THRESHOLDS_stable then "stable"
  else if mvi_value < MVI_THRESHOLDS_moderate then "moderate_inflow"
  else if mvi_value < MVI_THRESHOLDS_elevated then "elevated_inflow"
  else "high_inflow"

/-- `calculate_confidence` from mvi.py: confidence level based on the
(integer) population base. -/
def calculate_confidence (population_base : ℤ) : String :=
  if CONFIDENCE_THRESHOLDS_high < population_base then "high"
  else if CONFIDENCE_THRESHOLDS_medium < population_base then "medium"
  else "low"

/-- Severity order on the four zone strings, `stable` least severe and
`high_inflow` most severe; used to state monotonicity of `classify_zone`. -/
def zoneSeverityRank (zone : String) : ℕ :=
  if zone = "stable" then 0
  else if zone = "moderate_inflow" then 1
  else if zone = "elevated_inflow" then 2
  else 3

/-! ### Anomaly engine scalar classifiers (backend/engines/anomaly.py) -/

/-- `classify_severity` from anomaly.py: anomaly severity from the z-score,
an if/elif cascade on `abs(z_score)` against `ANOMALY_CONFIG`. -/
def classify_severity (z_score : ℚ) : String :=
  if ANOMALY_CONFIG_z_threshold_critical ≤ |z_score| then "CRITICAL"
  else if ANOMALY_CONFIG_z_threshold_high ≤ |z_score| then "HIGH"
  else if ANOMALY_CONFIG_z_threshold_medium ≤ |z_score| then "MEDIUM"
  else if ANOMALY_CONFIG_z_threshold_low ≤ |z_score| then "LOW"
  else "NORMAL"

/-- Severity order on the five severity strings, `NORMAL` least severe;
used to state that `classify_severity` is a monotonic step function. -/
def severityRank (severity : String) : ℕ :=
  if severity = "NORMAL" then 0
  else if severity = "LOW" then 1
  else if severity = "MEDIUM" then 2
  else if severity = "HIGH" then 3
  else 4

/-- `classify_anomaly_type` from anomaly.py: anomaly type from the z-score
direction and the number of consecutive anomalous days (a Python keyword
argument defaulting to 1). -/
def classify_anomaly_type (z_score : ℚ) (consecutive_anomalies : ℕ) : String :=
  if 3 < consecutive_anomalies then "STRUCTURAL"
  else if ANOMALY_CONFIG_z_threshold_high < z_score then "SPIKE"
  else if z_score < -ANOMALY_CONFIG_z_threshold_high then "DROP"
  else "TRANSIENT"

/-- The per-row map applied by `detect_anomalies` in anomaly.py:
`lambda z: classify_anomaly_type(z)`, which leaves `consecutive_anomalies`
at its default value 1. -/
def detect_anomaly_type (z_score : ℚ) : String :=
  classify_anomaly_type z_score 1

/-- The `is_anomaly` flag computed by `detect_anomalies` in anomaly.py:
`z_score.abs() >= ANOMALY_CONFIG["z_threshold_low"]`. -/
def is_anomaly (z_score : ℚ) : Bool :=
  decide (ANOMALY_CONFIG_z_threshold_low ≤ |z_score|)

/-! ### Trend typology (backend/engines/trend_typology.py) -/

/-- `classify_trend` from trend_typology.py: region trend typology from the
regression slope, variance and acceleration, an if-cascade whose first
check is high variance. -/
def classify_trend (slope variance acceleration : ℚ) : String :=
  if TREND_CONFIG_variance_high < variance then "volatile"
  else if TREND_CONFIG_slope_high < slope ∧ variance < TREND_CONFIG_variance_low then
    "persistent_inflow"
  else if TREND_CONFIG_slope_moderate < slope ∧
      TREND_CONFIG_acceleration_threshold < acceleration then
    "emerging_inflow"
  else if slope < TREND_CONFIG_slope_decline then "reversal"
  else if |slope| < 1/2 ∧ variance < TREND_CONFIG_variance_low then "stable"
  else if 1/2 < slope then "emerging_inflow"
  else "stable"

/-- Modelled from the claim wording, for comparison with `classify_trend`:
first match wins among variance > 10.0 → volatile; slope > 2.0 AND
variance < 2.0 → persistent_inflow; slope > 1.0 AND acceleration > 0.5 →
emerging_inflow; slope < −0.5 → reversal; |slope| < 0.5 AND variance < 2.0
→ stable; slope > 0.5 → emerging_inflow; else stable. -/
def classify_trend_claim (slope variance acceleration : ℚ) : String :=
  if 10 < variance then "volatile"
  else if 2 < slope ∧ variance < 2 then "persistent_inflow"
  else if 1 < slope ∧ 1/2 < acceleration then "emerging_inflow"
  else if slope < -1/2 then "reversal"
  else if |slope| < 1/2 ∧ variance < 2 then "stable"
  else if 1/2 < slope then "emerging_inflow"
  else "stable"

/-! ### Policy mapper (backend/engines/policy_mapper.py) -/

/-- One value of the `POLICY_MAPPINGS` dict in config.py: a policy
recommendation with priority, action type, primary action and reasoning. -/
structure Policy where
  priority : String
  action_type : String
  primary_action : String
  reasoning : String
deriving DecidableEq

/-- The empty Python dict `{}` used as the fallback of `dict.get` in
`get_policy_for_zone`; its lookups are modelled as empty strings. -/
def emptyPolicy : Policy :=
  { priority := "", action_type := "", primary_action := "", reasoning := "" }

/-- `POLICY_MAPPINGS` from config.py as a partial map from key strings to
policies (`none` for keys absent from the dict). -/
def POLICY_MAPPINGS : String → Option Policy
  | "persistent_inflow" => some
      { priority := "HIGH", action_type := "infrastructure",
        primary_action := "Augment Urban Infrastructure",
        reasoning := "Sustained population growth requires expanded public services" }
  | "emerging_inflow" => some
      { priority := "HIGH", action_type := "social_program",
        primary_action := "Expand Healthcare & Social Services",
        reasoning := "Growing population putting strain on local health systems" }
  | "moderate_inflow" => some
      { priority := "MEDIUM", action_type := "education",
        primary_action := "Increase School Capacity",
        reasoning := "Moderate growth requires long-term educational planning" }
  | "volatile" => some
      { priority := "MEDIUM", action_type := "governance",
        primary_action := "Employment & Labor Monitoring",
        reasoning := "Erratic migration patterns affect local labor markets" }
  | "reversal" => some
      { priority := "MEDIUM", action_type := "transport",
        primary_action := "Optimize Transport Networks",
        reasoning := "Shift in migration flow requires transport logistic review" }
  | "stable" => some
      { priority := "LOW", action_type := "maintenance",
        primary_action := "Continue Standard Operations",
        reasoning := "Stable zone requires no immediate intervention" }
  | "high_inflow" => some
      { priority := "CRITICAL", action_type := "emergency",
        primary_action := "Initiate Emergency Planning Cell",
        reasoning := "Extreme demographic pressure detected" }
  | _ => none

/-- `get_policy_for_zone` from policy_mapper.py: the high-inflow zone is
checked first, then the trend type is looked up in `POLICY_MAPPINGS`, then
a per-zone default table, then the stable policy. -/
def get_policy_for_zone (zone_type trend_type : String) : Policy :=
  if zone_type = "high_inflow" then (POLICY_MAPPINGS "high_inflow").getD emptyPolicy
  else
    match POLICY_MAPPINGS trend_type with
    | some policy => policy
    | none =>
        if zone_type = "stable" then (POLICY_MAPPINGS "stable").getD emptyPolicy
        else if zone_type = "moderate_inflow" then
          (POLICY_MAPPINGS "emerging_inflow").getD emptyPolicy
        else if zone_type = "elevated_inflow" then
          (POLICY_MAPPINGS "persistent_inflow").getD emptyPolicy
        else (POLICY_MAPPINGS "stable").getD emptyPolicy

/-- One row of the typology analytics frame consumed by
`generate_policy_recommendations`. -/
structure TypologyRow where
  geo_key : String
  state : String
  district : String
  zone_type : String
  trend_type : String
  mvi : ℚ
deriving DecidableEq

/-- One row of the policy recommendations frame produced by
`generate_policy_recommendations`. -/
structure Recommendation where
  geo_key : String
  state : String
  district : String
  mvi : ℚ
  zone_type : String
  trend_type : String
  priority : String
  action_type : String
  primary_action : String
  reasoning : String
deriving DecidableEq

/-- The row loop of `generate_policy_recommendations` from policy_mapper.py:
each typology row is mapped through `get_policy_for_zone`.  The policies the
lookup can return always carry all four keys, so the Python
`policy.get(key, default)` calls reduce to plain field access. -/
def generate_policy_recommendations (typology : List TypologyRow) :
    List Recommendation :=
  typology.map fun row =>
    let policy := get_policy_for_zone row.zone_type row.trend_type
    { geo_key := row.geo_key, state := row.state, district := row.district,
      mvi := row.mvi, zone_type := row.zone_type, trend_type := row.trend_type,
      priority := policy.priority, action_type := policy.action_type,
      primary_action := policy.primary_action, reasoning := policy.reasoning }

/-! ### Signal separation (backend/engines/signal_separation.py)

An input snapshot is modelled as a frame: the list of its numeric column
names together with rows carrying the `state` and `district` string columns
and an association list of numeric values (`getNum` applies the
`fill_null(0)` of the source).  Values are kept in `ℚ`. -/

/-- One row of an input snapshot: the string columns `state` and `district`
plus the numeric columns as an association list keyed by column name. -/
structure Row where
  state : String
  district : String
  nums : List (String × ℚ)
deriving DecidableEq

/-- An input snapshot: its numeric column names and its rows. -/
structure Frame where
  numCols : List String
  rows : List Row
deriving DecidableEq

/-- Numeric column access with the `fill_null(0)` of the source applied. -/
def getNum (r : Row) (c : String) : ℚ :=
  ((r.nums.lookup c).getD 0)

/-- The demographic branch of `calculate_organic_signal`: with both
expected age-banded columns present, the weighted sum
`demo_age_5_17 * youth_weight + demo_age_17_ * adult_weight`; otherwise the
fallback sums all numeric columns and multiplies by `adult_weight`
(1.0); with no numeric columns at all the signal is the literal 0.0. -/
def organicRowDemographic (cols : List String) (r : Row) : ℚ :=
  if "demo_age_5_17" ∈ cols ∧ "demo_age_17_" ∈ cols then
    getNum r "demo_age_5_17" * SIGNAL_WEIGHTS_demographic_youth +
      getNum r "demo_age_17_" * SIGNAL_WEIGHTS_demographic_adult
  else if cols ≠ [] then
    (cols.map (getNum r)).sum * SIGNAL_WEIGHTS_demographic_adult
  else 0

/-- The biometric branch of `calculate_organic_signal`: with both expected
age-banded columns present, the weighted sum
`bio_age_5_17 * child_weight + bio_age_17_ * adult_weight`; otherwise the
fallback sums all numeric columns and multiplies by `child_weight`
(0.1, the variable bound to `SIGNAL_WEIGHTS["biometric_child_5"]`); with no
numeric columns the signal is the literal 0.0. -/
def organicRowBiometric (cols : List String) (r : Row) : ℚ :=
  if "bio_age_5_17" ∈ cols ∧ "bio_age_17_" ∈ cols then
    getNum r "bio_age_5_17" * SIGNAL_WEIGHTS_biometric_child_5 +
      getNum r "bio_age_17_" * SIGNAL_WEIGHTS_biometric_adult
  else if cols ≠ [] then
    (cols.map (getNum r)).sum * SIGNAL_WEIGHTS_biometric_child_5
  else 0

/-- `calculate_organic_signal` from signal_separation.py, returning the
per-row `organic_signal` column; `none` when `data_type` is neither
`demographic` nor `biometric` (the source then adds no column). -/
def calculate_organic_signal (f : Frame) (data_type : String) :
    Option (List ℚ) :=
  if data_type = "demographic" then
    some (f.rows.map (organicRowDemographic f.numCols))
  else if data_type = "biometric" then
    some (f.rows.map (organicRowBiometric f.numCols))
  else none

/-- The per-row organic signal of a frame of the given kind. -/
def organicRow (data_type : String) (cols : List String) (r : Row) : ℚ :=
  if data_type = "demographic" then organicRowDemographic cols r
  else organicRowBiometric cols r

/-- The `organic_signal` aggregate of `aggregate_by_geo` followed by the
final `group_by` of `separate_signal_from_noise`, restricted to one
(state, district) group: the sum of the per-row signals of the rows in the
group.  Grouping is by the `state` and `district` columns (the derived
`geo_key` column `state + "_" + district` is a function of them). -/
def frameOrganicAt (f : Frame) (data_type : String) (p : String × String) : ℚ :=
  ((f.rows.filter fun r => r.state = p.1 ∧ r.district = p.2).map
    (organicRow data_type f.numCols)).sum

/-- The `avg_weight` of `separate_signal_from_noise`:
`(SIGNAL_WEIGHTS["demographic_adult"] + SIGNAL_WEIGHTS["biometric_adult"]) / 2`. -/
def avg_weight : ℚ :=
  (SIGNAL_WEIGHTS_demographic_adult + SIGNAL_WEIGHTS_biometric_adult) / 2

/-- The `raw_updates` column of `separate_signal_from_noise`:
`organic_signal / avg_weight`. -/
def raw_updates_of (organic_signal : ℚ) : ℚ :=
  organic_signal / avg_weight

/-- The `noise_ratio` column of `separate_signal_from_noise`:
`1 - organic_signal / raw_updates.replace(0, 1)`. -/
def noise_ratio_of (organic_signal : ℚ) : ℚ :=
  1 - organic_signal /
    (if raw_updates_of organic_signal = 0 then 1 else raw_updates_of organic_signal)

/-- One row of the signal-separated output frame
`[geo_key, state, district, organic_signal, raw_updates, noise_ratio]`. -/
structure SignalRow where
  geo_key : String
  state : String
  district : String
  organic_signal : ℚ
  raw_updates : ℚ
  noise_ratio : ℚ
deriving DecidableEq

/-- The non-empty input frames of `separate_signal_from_noise` paired with
their data type, in processing order: a frame takes part only when it is
provided (not `None`) and has at least one row. -/
def activeFrames (demographic_df biometric_df : Option Frame) :
    List (Frame × String) :=
  (match demographic_df with
   | some f => if 0 < f.rows.length then [(f, "demographic")] else []
   | none => []) ++
  (match biometric_df with
   | some f => if 0 < f.rows.length then [(f, "biometric")] else []
   | none => [])

/-- `separate_signal_from_noise` from signal_separation.py: each active
input frame gets its `organic_signal` column, is aggregated by geo, the
frames are concatenated and re-aggregated by (state, district, geo_key)
summing `organic_signal`, and `raw_updates` and `noise_ratio` are derived.
With no active frame the result is the empty frame (whose schema is the
output columns). -/
def separate_signal_from_noise (demographic_df biometric_df : Option Frame) :
    List SignalRow :=
  let frames := activeFrames demographic_df biometric_df
  if frames = [] then []
  else
    let allPairs :=
      (frames.flatMap fun fd => fd.1.rows.map fun r => (r.state, r.district)).dedup
    allPairs.map fun p =>
      let organic := (frames.map fun fd => frameOrganicAt fd.1 fd.2 p).sum
      { geo_key := p.1 ++ "_" ++ p.2, state := p.1, district := p.2,
        organic_signal := organic,
        raw_updates := raw_updates_of organic,
        noise_ratio := noise_ratio_of organic }

/-! ### Rolling statistics of `detect_anomalies` (backend/engines/anomaly.py)

`detect_anomalies` sorts by `(geo_key, date)` and computes
`rolling_mean(window_size=min(window, 7), min_periods=1)` and
`rolling_std(...)` within each `geo_key` partition.  A partition is
modelled as a date-ordered list of values; the rolling standard deviation
uses the sample convention (polars default `ddof=1`) and is undefined
(`null`, here `none`) on a window of fewer than two values.  Since the
standard deviation of a window is irrational in general, the pipeline is
embedded with the rolling variance (the square of the rolling std), and
z-score statements relate a rational std to it through `IsRollingStd`. -/

/-- The trailing window of width `w` ending at index `i` (inclusive). -/
def windowAt (xs : List ℚ) (w i : ℕ) : List ℚ :=
  (xs.take (i + 1)).drop (i + 1 - w)

/-- Arithmetic mean of a list of rationals (0 on the empty list). -/
def listMean (l : List ℚ) : ℚ := l.sum / l.length

/-- Sample variance (ddof = 1) of a list; `none` on fewer than two values,
matching the null returned by `rolling_std` there. -/
def sampleVar (l : List ℚ) : Option ℚ :=
  if l.length ≤ 1 then none
  else some (((l.map fun x => (x - listMean l) ^ 2).sum) / ((l.length : ℚ) - 1))

/-- The `rolling_mean` column of `detect_anomalies` at index `i` of one
geo_key partition: mean over the trailing `min(window, 7)`-wide window,
minimum one period. -/
def rolling_mean (xs : List ℚ) (window i : ℕ) : ℚ :=
  listMean (windowAt xs (min window 7) i)

/-- The square of the `rolling_std` column of `detect_anomalies` at index
`i` of one geo_key partition (sample variance over the same window). -/
def rolling_var (xs : List ℚ) (window i : ℕ) : Option ℚ :=
  sampleVar (windowAt xs (min window 7) i)

/-- `std` is the rolling standard deviation of series `xs` at index `i`:
it is non-negative and its square is the rolling variance there. -/
def IsRollingStd (xs : List ℚ) (window i : ℕ) (std : ℚ) : Prop :=
  0 ≤ std ∧ rolling_var xs window i = some (std ^ 2)

/-- The z-score expression of `detect_anomalies`:
`(value - rolling_mean) / rolling_std.replace(0, 1)`. -/
def detectZScore (value mean std : ℚ) : ℚ :=
  (value - mean) / (if std = 0 then 1 else std)

/-- Modelled from the claim wording, for comparison with `detectZScore`:
`z_score = (value − rolling_mean) / max(rolling_std, 1)`. -/
def claimZScore (value mean std : ℚ) : ℚ :=
  (value - mean) / max std 1

/-- One row of the anomaly analytics frame, statistics stage: geo key,
date ordinal, the value column (named `mvi` in the output), the rolling
mean, and the rolling variance (square of the `rolling_std` column,
`none` where that column is null).  The derived columns `z_score`,
`is_anomaly`, `anomaly_type` and `severity` are obtained from these via
`detectZScore`, `is_anomaly`, `detect_anomaly_type` and
`classify_severity` with std related by `IsRollingStd`. -/
structure AnomRow where
  geo_key : String
  date : ℕ
  mvi : ℚ
  rolling_mean : ℚ
  rolling_var : Option ℚ
deriving DecidableEq

/-- `detect_anomalies` from anomaly.py, statistics stage.  The input time
series is modelled after the `sort(['geo_key', 'date'])` and
`.over('geo_key')` of the source: one entry per geo_key holding its
date-ordered values of the value column.  `None` input or an input with
no rows yields the empty frame (whose schema is the documented output
columns). -/
def detect_anomalies (window : ℕ)
    (mvi_timeseries : Option (List (String × List ℚ))) : List AnomRow :=
  match mvi_timeseries with
  | none => []
  | some groups =>
      if (groups.map fun g => g.2.length).sum = 0 then []
      else
        groups.flatMap fun g =>
          (List.range g.2.length).map fun i =>
            { geo_key := g.1, date := i, mvi := g.2.getD i 0,
              rolling_mean := rolling_mean g.2 window i,
              rolling_var := rolling_var g.2 window i }

/-! ### MVI pipeline (backend/engines/mvi.py)

`calculate_mvi` joins the signal-separated frame with the enrolment frame
aggregated by geo, fills missing populations with the median population
(default 10000 when the median is null or zero), computes
`mvi = organic_signal / population_base * 1000` (the infinite/NaN results
of a zero population are replaced by 0, which coincides with division by
zero in `ℚ`), and classifies zone and confidence per row.  The enrolment
snapshot is modelled with its age-banded numeric columns gathered in
`ages` (the source sums all columns whose name contains "age"). -/

/-- One row of the enrolment snapshot: geo columns plus the values of its
age-banded columns. -/
structure EnrolRow where
  state : String
  district : String
  ages : List ℚ
deriving DecidableEq

/-- One row of the MVI analytics output frame `[geo_key, state, district,
mvi, zone_type, confidence, population_base, organic_signal, raw_updates,
noise_ratio]`. -/
structure MviRow where
  geo_key : String
  state : String
  district : String
  mvi : ℚ
  zone_type : String
  confidence : String
  population_base : ℚ
  organic_signal : ℚ
  raw_updates : ℚ
  noise_ratio : ℚ
deriving DecidableEq

/-- Median of a list of rationals in the polars convention: `none` on the
empty list, middle element for odd length, mean of the two middle elements
for even length. -/
def medianQ (l : List ℚ) : Option ℚ :=
  let s := l.insertionSort (· ≤ ·)
  if s.length = 0 then none
  else if s.length % 2 = 1 then some (s.getD (s.length / 2) 0)
  else some ((s.getD (s.length / 2 - 1) 0 + s.getD (s.length / 2) 0) / 2)

/-- Python `int()` truncation (toward zero) of a rational. -/
def truncQ (q : ℚ) : ℤ := q.num.tdiv q.den

/-- The enrolment aggregation of `calculate_mvi`: group by
(state, district, geo_key) and sum the horizontal sums of the age columns
into `population_base`; keyed here by the derived
`geo_key = state + "_" + district`. -/
def enrolAgg (enrolment_df : List EnrolRow) : List (String × ℚ) :=
  ((enrolment_df.map fun r => (r.state, r.district)).dedup).map fun p =>
    (p.1 ++ "_" ++ p.2,
     ((enrolment_df.filter fun r => r.state = p.1 ∧ r.district = p.2).map
       fun r => r.ages.sum).sum)

/-- The left join of `calculate_mvi` on `geo_key`: every signal row is
paired with the population of each matching enrolment aggregate, or with
`none` (a null population) when there is no match. -/
def joinPopulation (signal_df : List SignalRow)
    (agg : List (String × ℚ)) : List (SignalRow × Option ℚ) :=
  signal_df.flatMap fun s =>
    match agg.filter fun e => e.1 = s.geo_key with
    | [] => [(s, none)]
    | ms => ms.map fun e => (s, some e.2)

/-- `calculate_mvi` from mvi.py.  `none` inputs model snapshots that are
missing (passed as `None` and not recoverable from disk); either one
missing yields the empty frame with the documented output columns. -/
def calculate_mvi (signal_df : Option (List SignalRow))
    (enrolment_df : Option (List EnrolRow)) : List MviRow :=
  match signal_df, enrolment_df with
  | some sig, some enr =>
      let joined := joinPopulation sig (enrolAgg enr)
      let median_pop :=
        match medianQ (joined.filterMap Prod.snd) with
        | none => (10000 : ℚ)
        | some m => if m = 0 then 10000 else m
      joined.map fun se =>
        let pop := se.2.getD median_pop
        let mvi := se.1.organic_signal / pop * 1000
        { geo_key := se.1.geo_key, state := se.1.state,
          district := se.1.district, mvi := mvi,
          zone_type := classify_zone mvi,
          confidence := calculate_confidence (truncQ pop),
          population_base := pop,
          organic_signal := se.1.organic_signal,
          raw_updates := se.1.raw_updates,
          noise_ratio := se.1.noise_ratio }
  | _, _ => []

/-! ### Theorems -/

/-- C1: for every MVI value `v`, `classify_zone v` is `stable` iff `v < 5`,
`moderate_inflow` iff `5 ≤ v < 15`, `elevated_inflow` iff `15 ≤ v < 30` and
`high_inflow` iff `v ≥ 30` (closed-left/open-right bands except the top
one); consequently zone severity is monotonic non-decreasing in `v`. -/
theorem classify_zone_bands_and_monotone (v w : ℚ) :
    ((classify_zone v = "stable" ↔ v < 5) ∧
     (classify_zone v = "moderate_inflow" ↔ 5 ≤ v ∧ v < 15) ∧
     (classify_zone v = "elevated_inflow" ↔ 15 ≤ v ∧ v < 30) ∧
     (classify_zone v = "high_inflow" ↔ 30 ≤ v)) ∧
    (v ≤ w →
      zoneSeverityRank (classify_zone v) ≤ zoneSeverityRank (classify_zone w)) := by
  constructor
  · unfold classify_zone MVI_THRESHOLDS_stable MVI_THRESHOLDS_moderate
      MVI_THRESHOLDS_elevated
    split_ifs with h1 h2 h3 <;>
      refine ⟨?_, ?_, ?_, ?_⟩ <;> constructor <;> intro h <;>
        first
          | rfl
          | linarith
          | exact absurd h (by decide)
          | exact ⟨by linarith, by linarith⟩
  · intro hvw
    unfold classify_zone MVI_THRESHOLDS_stable MVI_THRESHOLDS_moderate
      MVI_THRESHOLDS_elevated
    split_ifs <;> first | decide | (exfalso; linarith)

/-- Witness for the monotonicity hypothesis of
`classify_zone_bands_and_monotone` at `v = 4999/1000`, `w = 30`. -/
theorem classify_zone_bands_and_monotone_witness :
    zoneSeverityRank (classify_zone (4999/1000)) ≤
      zoneSeverityRank (classify_zone 30) :=
  (classify_zone_bands_and_monotone (4999/1000) 30).2 (by norm_num)

/-- C6: `classify_trend` agrees everywhere with the cascade stated in the
claim (variance check first, then persistent_inflow, emerging_inflow,
reversal, stable, the emerging_inflow catch-all, stable); in particular a
variance above 10 classifies as `volatile` regardless of slope and
acceleration, so slope 3 with variance 15 is `volatile`. -/
theorem classify_trend_precedence (slope variance acceleration : ℚ) :
    classify_trend slope variance acceleration =
      classify_trend_claim slope variance acceleration ∧
    (10 < variance → classify_trend slope variance acceleration = "volatile") ∧
    classify_trend 3 15 acceleration = "volatile" := by
  have hvol : ∀ s v a : ℚ, 10 < v → classify_trend s v a = "volatile" := by
    intro s v a hv
    unfold classify_trend
    rw [if_pos (show TREND_CONFIG_variance_high < v from hv)]
  exact ⟨rfl, hvol slope variance acceleration,
    hvol 3 15 acceleration (by norm_num)⟩

/-- Witness for the variance hypothesis of `classify_trend_precedence` at
slope 3, variance 15, acceleration 0. -/
theorem classify_trend_precedence_witness :
    classify_trend 3 15 0 = "volatile" :=
  (classify_trend_precedence 3 15 0).2.1 (by norm_num)

/-- C7: for every trend type string, `get_policy_for_zone "high_inflow"` is
the high-inflow policy with priority CRITICAL and action type emergency,
and in every generated policy recommendation a row whose zone is
`high_inflow` carries that priority and action type whatever its trend. -/
theorem high_inflow_policy_overrides (trend_type : String)
    (typology : List TypologyRow) (r : Recommendation) :
    get_policy_for_zone "high_inflow" trend_type =
      { priority := "CRITICAL", action_type := "emergency",
        primary_action := "Initiate Emergency Planning Cell",
        reasoning := "Extreme demographic pressure detected" } ∧
    (r ∈ generate_policy_recommendations typology →
      r.zone_type = "high_inflow" →
      r.priority = "CRITICAL" ∧ r.action_type = "emergency") := by
  refine ⟨rfl, ?_⟩
  intro hr hz
  simp only [generate_policy_recommendations, List.mem_map] at hr
  obtain ⟨row, _, rfl⟩ := hr
  simp only at hz ⊢
  rw [hz]
  exact ⟨rfl, rfl⟩

/-- Witness for `high_inflow_policy_overrides` on a concrete typology row
with zone `high_inflow` and trend `stable`. -/
theorem high_inflow_policy_overrides_witness :
    ({ geo_key := "A_B", state := "A", district := "B", mvi := 42,
       zone_type := "high_inflow", trend_type := "stable",
       priority := "CRITICAL", action_type := "emergency",
       primary_action := "Initiate Emergency Planning Cell",
       reasoning := "Extreme demographic pressure detected" } :
        Recommendation).priority = "CRITICAL" ∧
    ({ geo_key := "A_B", state := "A", district := "B", mvi := 42,
       zone_type := "high_inflow", trend_type := "stable",
       priority := "CRITICAL", action_type := "emergency",
       primary_action := "Initiate Emergency Planning Cell",
       reasoning := "Extreme demographic pressure detected" } :
        Recommendation).action_type = "emergency" :=
  (high_inflow_policy_overrides "stable"
    [{ geo_key := "A_B", state := "A", district := "B",
       zone_type := "high_inflow", trend_type := "stable", mvi := 42 }]
    _).2 (by decide) (by decide)

/-- C5: `classify_severity` realises the documented bands on `|z|`
(≥ 4 CRITICAL, ≥ 3 HIGH, ≥ 2 MEDIUM, ≥ 1.5 LOW, else NORMAL), severity is
a monotonic step function of `|z|`, and the `is_anomaly` flag of
`detect_anomalies` holds exactly when `|z| ≥ 1.5`, i.e. exactly when the
severity is not NORMAL. -/
theorem classify_severity_bands_and_flag (z w : ℚ) :
    ((classify_severity z = "CRITICAL" ↔ 4 ≤ |z|) ∧
     (classify_severity z = "HIGH" ↔ 3 ≤ |z| ∧ |z| < 4) ∧
     (classify_severity z = "MEDIUM" ↔ 2 ≤ |z| ∧ |z| < 3) ∧
     (classify_severity z = "LOW" ↔ 3/2 ≤ |z| ∧ |z| < 2) ∧
     (classify_severity z = "NORMAL" ↔ |z| < 3/2)) ∧
    (|z| ≤ |w| →
      severityRank (classify_severity z) ≤ severityRank (classify_severity w)) ∧
    (is_anomaly z = true ↔ 3/2 ≤ |z|) ∧
    (is_anomaly z = true ↔ classify_severity z ≠ "NORMAL") := by
  have hflag : is_anomaly z = true ↔ 3/2 ≤ |z| := by
    simp [is_anomaly, ANOMALY_CONFIG_z_threshold_low]
  refine ⟨?_, ?_, hflag, ?_⟩
  · unfold classify_severity ANOMALY_CONFIG_z_threshold_critical
      ANOMALY_CONFIG_z_threshold_high ANOMALY_CONFIG_z_threshold_medium
      ANOMALY_CONFIG_z_threshold_low
    split_ifs with h1 h2 h3 h4 <;>
      refine ⟨?_, ?_, ?_, ?_, ?_⟩ <;> constructor <;> intro h <;>
        first
          | rfl
          | linarith
          | exact absurd h (by decide)
          | exact ⟨by linarith, by linarith⟩
  · intro hzw
    unfold classify_severity ANOMALY_CONFIG_z_threshold_critical
      ANOMALY_CONFIG_z_threshold_high ANOMALY_CONFIG_z_threshold_medium
      ANOMALY_CONFIG_z_threshold_low
    split_ifs <;> first | decide | (exfalso; linarith)
  · rw [hflag]
    unfold classify_severity ANOMALY_CONFIG_z_threshold_critical
      ANOMALY_CONFIG_z_threshold_high ANOMALY_CONFIG_z_threshold_medium
      ANOMALY_CONFIG_z_threshold_low
    split_ifs with h1 h2 h3 h4 <;> constructor <;> intro h <;>
      first
        | linarith
        | decide
        | exact absurd rfl h

/-- Witness for the monotonicity hypothesis of
`classify_severity_bands_and_flag` at `z = 149/100`, `w = 4`. -/
theorem classify_severity_bands_and_flag_witness :
    severityRank (classify_severity (149/100)) ≤
      severityRank (classify_severity 4) :=
  (classify_severity_bands_and_flag (149/100) 4).2.1 (by
    rw [abs_of_nonneg (by norm_num : (0:ℚ) ≤ 149/100),
      abs_of_nonneg (by norm_num : (0:ℚ) ≤ 4)]
    norm_num)

/-- C3 (code bug): `detect_anomalies` computes the `anomaly_type` column by
mapping `lambda z: classify_anomaly_type(z)`, which leaves
`consecutive_anomalies` at its default 1, so the STRUCTURAL label that
`classify_anomaly_type` is documented to give runs of more than 3
consecutive flagged days is never produced; every row is labelled by its
z-score alone (SPIKE above 3, DROP below −3, else TRANSIENT), e.g. a row
with z-score 2 inside a 5-day flagged run is labelled TRANSIENT. -/
theorem detect_anomaly_type_never_structural (z : ℚ) (consecutive : ℕ) :
    detect_anomaly_type z ≠ "STRUCTURAL" ∧
    (detect_anomaly_type z = classify_anomaly_type z 1) ∧
    (3 < consecutive → classify_anomaly_type z consecutive = "STRUCTURAL") ∧
    classify_anomaly_type 2 5 = "STRUCTURAL" ∧
    detect_anomaly_type 2 = "TRANSIENT" ∧
    is_anomaly 2 = true := by
  refine ⟨?_, rfl, ?_, by decide, by decide, by
    unfold is_anomaly ANOMALY_CONFIG_z_threshold_low
    rw [decide_eq_true_eq, abs_of_nonneg (by norm_num : (0:ℚ) ≤ 2)]
    norm_num⟩
  · unfold detect_anomaly_type classify_anomaly_type
      ANOMALY_CONFIG_z_threshold_high
    split_ifs with hc h1 h2 <;>
      first | exact absurd hc (by decide) | decide
  · intro hc
    unfold classify_anomaly_type
    rw [if_pos hc]

/-- Witness for the run-length hypothesis of
`detect_anomaly_type_never_structural` at `z = 2`, run length 5. -/
theorem detect_anomaly_type_never_structural_witness :
    classify_anomaly_type 2 5 = "STRUCTURAL" :=
  ((detect_anomaly_type_never_structural 2 5).2.2.1 (by norm_num))

/-- Helper evaluation of the anomaly statistics pipeline on the concrete
single-geo series 0, 0, 0, 1 with the default 30-day window (capped at 7):
the fourth row has rolling mean 1/4 and rolling variance 1/4, i.e. rolling
standard deviation 1/2. -/
theorem detect_anomalies_eval_example :
    detect_anomalies 30 (some [("g", [0, 0, 0, 1])]) =
      [{ geo_key := "g", date := 0, mvi := 0, rolling_mean := 0,
         rolling_var := none },
       { geo_key := "g", date := 1, mvi := 0, rolling_mean := 0,
         rolling_var := some 0 },
       { geo_key := "g", date := 2, mvi := 0, rolling_mean := 0,
         rolling_var := some 0 },
       { geo_key := "g", date := 3, mvi := 1, rolling_mean := 1/4,
         rolling_var := some (1/4) }] := by
  rw [detect_anomalies]
  rw [if_neg (by decide)]
  simp only [List.flatMap_cons, List.flatMap_nil, List.append_nil]
  rw [show List.range ([(0:ℚ), 0, 0, 1].length) = [0, 1, 2, 3] by decide]
  norm_num [rolling_mean, rolling_var, windowAt, listMean, sampleVar]

/-- C2 (counterexample): on the series 0, 0, 0, 1 the fourth row has
rolling mean 1/4 and rolling standard deviation 1/2 (a nonzero value below
1), and there the z-score computed by `detect_anomalies` divides by the
standard deviation itself, giving 3/2, while the claimed
`max(rolling_std, 1)` denominator would give 3/4. -/
theorem z_score_denominator_counterexample :
    IsRollingStd [0, 0, 0, 1] 30 3 (1/2) ∧
    rolling_mean [0, 0, 0, 1] 30 3 = 1/4 ∧
    detectZScore 1 (1/4) (1/2) = 3/2 ∧
    claimZScore 1 (1/4) (1/2) = 3/4 ∧
    detectZScore 1 (1/4) (1/2) ≠ claimZScore 1 (1/4) (1/2) := by
  have hvar : rolling_var [0, 0, 0, 1] 30 3 = some ((1/2 : ℚ) ^ 2) := by
    norm_num [rolling_var, windowAt, sampleVar, listMean]
  have hcode : detectZScore 1 (1/4) (1/2) = 3/2 := by
    rw [detectZScore, if_neg (by norm_num)]
    norm_num
  have hclaim : claimZScore 1 (1/4) (1/2) = 3/4 := by
    rw [claimZScore, max_eq_right (by norm_num : (1/2 : ℚ) ≤ 1)]
    norm_num
  refine ⟨⟨by norm_num, hvar⟩, ?_, hcode, hclaim, ?_⟩
  · norm_num [rolling_mean, windowAt, listMean]
  · rw [hcode, hclaim]; norm_num

/-- C2 (amended): for every row of `detect_anomalies` whose rolling
standard deviation `std` is defined, the z-score is
`(value − rolling_mean) / d` where `d` is `std` itself unless `std` is
exactly zero, in which case `d = 1` (the source's `replace(0, 1)`); this
agrees with the claimed `max(std, 1)` denominator when `std ≥ 1`, and
differs from it whenever `0 < std < 1` and the value differs from the
rolling mean. -/
theorem detect_z_score_formula (ts : List (String × List ℚ)) (window : ℕ)
    (row : AnomRow) (hrow : row ∈ detect_anomalies window (some ts))
    (std : ℚ) (hstd : 0 ≤ std) (hvar : row.rolling_var = some (std ^ 2)) :
    detectZScore row.mvi row.rolling_mean std =
      (row.mvi - row.rolling_mean) / (if std = 0 then 1 else std) ∧
    (std = 0 →
      detectZScore row.mvi row.rolling_mean std = row.mvi - row.rolling_mean) ∧
    (std ≠ 0 →
      detectZScore row.mvi row.rolling_mean std =
        (row.mvi - row.rolling_mean) / std) ∧
    (1 ≤ std →
      detectZScore row.mvi row.rolling_mean std =
        claimZScore row.mvi row.rolling_mean std) ∧
    (0 < std → std < 1 → row.mvi ≠ row.rolling_mean →
      detectZScore row.mvi row.rolling_mean std ≠
        claimZScore row.mvi row.rolling_mean std) := by
  refine ⟨rfl, ?_, ?_, ?_, ?_⟩
  · intro h0
    rw [detectZScore, if_pos h0, div_one]
  · intro h0
    rw [detectZScore, if_neg h0]
  · intro h1
    rw [detectZScore, claimZScore, if_neg (by linarith),
      max_eq_left h1]
  · intro hpos hlt hne
    rw [detectZScore, claimZScore, if_neg (ne_of_gt hpos),
      max_eq_right (le_of_lt hlt), div_one]
    intro heq
    have hm : row.mvi - row.rolling_mean ≠ 0 := sub_ne_zero_of_ne hne
    rw [div_eq_iff (ne_of_gt hpos)] at heq
    have : std = 1 := by
      have := mul_left_cancel₀ hm (by linarith [heq] : (row.mvi - row.rolling_mean) * std = (row.mvi - row.rolling_mean) * 1)
      linarith [this]
    linarith

/-- Witness for `detect_z_score_formula` on the last row of the concrete
series 0, 0, 0, 1: the standard deviation there is 1/2, and the code's
z-score differs from the claimed one. -/
theorem detect_z_score_formula_witness :
    detectZScore (1 : ℚ) (1/4) (1/2) ≠ claimZScore (1 : ℚ) (1/4) (1/2) :=
  (detect_z_score_formula [("g", [0, 0, 0, 1])] 30
      { geo_key := "g", date := 3, mvi := 1, rolling_mean := 1/4,
        rolling_var := some ((1/2) ^ 2) }
      (by rw [detect_anomalies_eval_example]; norm_num)
      (1/2) (by norm_num) rfl).2.2.2.2
    (by norm_num) (by norm_num) (by norm_num)

/-- C4 (counterexample): a biometric snapshot without the expected
age-banded columns, with a single numeric column holding 10, gets organic
signal 10 × 0.1 = 1, not the 10 × 0.3 = 3 that the claimed biometric adult
weight would give. -/
theorem organic_fallback_counterexample :
    calculate_organic_signal
      { numCols := ["x"],
        rows := [{ state := "S", district := "D", nums := [("x", 10)] }] }
      "biometric" = some [1] ∧
    (1 : ℚ) ≠ 10 * SIGNAL_WEIGHTS_biometric_adult := by
  constructor
  · rw [calculate_organic_signal, if_neg (by decide), if_pos rfl]
    simp only [List.map_cons, List.map_nil, Option.some.injEq]
    rw [organicRowBiometric, if_neg (by decide), if_pos (by decide)]
    norm_num [getNum, SIGNAL_WEIGHTS_biometric_child_5]
  · norm_num [SIGNAL_WEIGHTS_biometric_adult]

/-- C4 (amended): when the expected age-banded columns are absent (and at
least one numeric column exists), each row's organic signal is the sum of
its numeric columns times the demographic adult weight 1.0 for demographic
input, but times the biometric child weight 0.1 — not the biometric adult
weight 0.3 — for biometric input. -/
theorem organic_fallback_weights (f : Frame)
    (hd : ¬("demo_age_5_17" ∈ f.numCols ∧ "demo_age_17_" ∈ f.numCols))
    (hb : ¬("bio_age_5_17" ∈ f.numCols ∧ "bio_age_17_" ∈ f.numCols))
    (hne : f.numCols ≠ []) :
    calculate_organic_signal f "demographic" =
      some (f.rows.map fun r =>
        (f.numCols.map (getNum r)).sum * SIGNAL_WEIGHTS_demographic_adult) ∧
    calculate_organic_signal f "biometric" =
      some (f.rows.map fun r =>
        (f.numCols.map (getNum r)).sum * SIGNAL_WEIGHTS_biometric_child_5) ∧
    SIGNAL_WEIGHTS_demographic_adult = 1 ∧
    SIGNAL_WEIGHTS_biometric_child_5 = 1/10 ∧
    SIGNAL_WEIGHTS_biometric_child_5 ≠ SIGNAL_WEIGHTS_biometric_adult := by
  refine ⟨?_, ?_, rfl, rfl,
    by norm_num [SIGNAL_WEIGHTS_biometric_child_5, SIGNAL_WEIGHTS_biometric_adult]⟩
  · rw [calculate_organic_signal, if_pos rfl]
    have h : ∀ r : Row, organicRowDemographic f.numCols r =
        (f.numCols.map (getNum r)).sum * SIGNAL_WEIGHTS_demographic_adult := by
      intro r
      rw [organicRowDemographic, if_neg hd, if_pos hne]
    rw [Option.some.injEq]
    exact List.map_congr_left fun r _ => h r
  · rw [calculate_organic_signal, if_neg (by decide), if_pos rfl]
    have h : ∀ r : Row, organicRowBiometric f.numCols r =
        (f.numCols.map (getNum r)).sum * SIGNAL_WEIGHTS_biometric_child_5 := by
      intro r
      rw [organicRowBiometric, if_neg hb, if_pos hne]
    rw [Option.some.injEq]
    exact List.map_congr_left fun r _ => h r

/-- Witness for `organic_fallback_weights` on a one-column demographic
snapshot without the expected age-banded columns. -/
theorem organic_fallback_weights_witness :
    calculate_organic_signal
      { numCols := ["y"],
        rows := [{ state := "S", district := "D", nums := [("y", 10)] }] }
      "demographic" =
      some ([({ state := "S", district := "D", nums := [("y", 10)] } : Row)].map
        fun r => ((["y"].map (getNum r)).sum * SIGNAL_WEIGHTS_demographic_adult)) :=
  (organic_fallback_weights
    { numCols := ["y"],
      rows := [{ state := "S", district := "D", nums := [("y", 10)] }] }
    (by decide) (by decide) (by decide)).1

/-- C10: in every output row of `separate_signal_from_noise`,
`raw_updates` is `organic_signal / 0.65` (0.65 being the mean of the
demographic and biometric adult weights), so `noise_ratio` is the constant
0.35 whenever `organic_signal ≠ 0` and 1 when `organic_signal = 0`: it
carries no information beyond whether the geo's organic signal is zero. -/
theorem noise_ratio_invariant (organic : ℚ)
    (demographic_df biometric_df : Option Frame) (r : SignalRow) :
    avg_weight = 13/20 ∧
    raw_updates_of organic = organic / (13/20) ∧
    (organic ≠ 0 → noise_ratio_of organic = 7/20) ∧
    (organic = 0 → noise_ratio_of organic = 1) ∧
    (r ∈ separate_signal_from_noise demographic_df biometric_df →
      r.raw_updates = raw_updates_of r.organic_signal ∧
      r.noise_ratio = noise_ratio_of r.organic_signal) := by
  have havg : avg_weight = 13/20 := by
    norm_num [avg_weight, SIGNAL_WEIGHTS_demographic_adult,
      SIGNAL_WEIGHTS_biometric_adult]
  refine ⟨havg, by rw [raw_updates_of, havg], ?_, ?_, ?_⟩
  · intro h0
    have hraw : raw_updates_of organic ≠ 0 := by
      rw [raw_updates_of, havg]
      exact div_ne_zero h0 (by norm_num)
    rw [noise_ratio_of, if_neg hraw, raw_updates_of, havg]
    have hdiv : organic / (organic / (13/20)) = 13/20 := by
      field_simp
      ring
    rw [hdiv]
    norm_num
  · intro h0
    rw [noise_ratio_of, raw_updates_of, h0]
    norm_num
  · intro hr
    simp only [separate_signal_from_noise] at hr
    by_cases hfr : activeFrames demographic_df biometric_df = []
    · rw [if_pos hfr] at hr
      exact absurd hr (List.not_mem_nil r)
    · rw [if_neg hfr] at hr
      obtain ⟨p, hp, rfl⟩ := List.mem_map.mp hr
      exact ⟨rfl, rfl⟩

/-- Witness for the nonzero-signal hypothesis of `noise_ratio_invariant`
at organic signal 13. -/
theorem noise_ratio_invariant_witness :
    noise_ratio_of 13 = 7/20 :=
  (noise_ratio_invariant 13 none none
    { geo_key := "", state := "", district := "", organic_signal := 0,
      raw_updates := 0, noise_ratio := 0 }).2.2.1 (by norm_num)

/-- C9 (counterexample): `calculate_mvi` called with a non-empty signal
snapshot and an empty (zero-row) enrolment snapshot — a call where a
required input snapshot is empty — returns a non-empty frame, not the
empty frame the claim requires. -/
theorem calculate_mvi_empty_enrolment_counterexample :
    calculate_mvi
      (some [{ geo_key := "A_B", state := "A", district := "B",
               organic_signal := 13, raw_updates := 20, noise_ratio := 7/20 }])
      (some []) ≠ [] := by
  intro hnil
  have h : (calculate_mvi
      (some [{ geo_key := "A_B", state := "A", district := "B",
               organic_signal := 13, raw_updates := 20, noise_ratio := 7/20 }])
      (some [])).length = 1 := rfl
  rw [hnil] at h
  exact absurd h (by decide)

/-- C9 (amended): the three engines are total functions that soft-fail to
the empty output frame when an input snapshot is `None`, and
`detect_anomalies` and `separate_signal_from_noise` also when a provided
snapshot has no rows, as does `calculate_mvi` when the signal snapshot has
no rows; but an empty enrolment snapshot with a non-empty signal snapshot
makes `calculate_mvi` return one row per signal row with `population_base`
filled by the 10000 default, rather than an empty frame. -/
theorem engines_soft_fail_empty_inputs (e : List EnrolRow)
    (s : List SignalRow) (w : ℕ) (cols cols2 : List String) (sr : SignalRow) :
    calculate_mvi none (some e) = [] ∧
    calculate_mvi (some s) none = [] ∧
    calculate_mvi none none = [] ∧
    calculate_mvi (some []) (some e) = [] ∧
    detect_anomalies w none = [] ∧
    detect_anomalies w (some []) = [] ∧
    separate_signal_from_noise none none = [] ∧
    separate_signal_from_noise (some { numCols := cols, rows := [] }) none = [] ∧
    separate_signal_from_noise none (some { numCols := cols, rows := [] }) = [] ∧
    separate_signal_from_noise (some { numCols := cols, rows := [] })
      (some { numCols := cols2, rows := [] }) = [] ∧
    (calculate_mvi (some [sr]) (some [])).map (fun row => row.population_base) =
      [10000] ∧
    (calculate_mvi (some [sr]) (some [])).map (fun row => row.organic_signal) =
      [sr.organic_signal] :=
  ⟨rfl, rfl, rfl, rfl, rfl, rfl, rfl, rfl, rfl, rfl, rfl, rfl⟩

/-- Helper evaluation of the signal separation pipeline on a concrete
demographic snapshot with the expected age-banded columns: 50 youth and
100 adult updates in one geo give organic signal 130, raw updates 200 and
noise ratio 7/20. -/
theorem separate_signal_eval_example :
    separate_signal_from_noise
      (some { numCols := ["demo_age_5_17", "demo_age_17_"],
              rows := [{ state := "S", district := "D",
                         nums := [("demo_age_5_17", 50),
                                  ("demo_age_17_", 100)] }] })
      none =
      [{ geo_key := "S_D", state := "S", district := "D",
         organic_signal := 130, raw_updates := 200, noise_ratio := 7/20 }] := by
  simp only [separate_signal_from_noise, activeFrames, List.append_nil,
    List.length_cons, List.length_nil, Nat.zero_add, Nat.lt_irrefl,
    Nat.zero_lt_one, if_true, reduceCtorEq, if_false,
    List.flatMap_cons, List.flatMap_nil, List.map_cons, List.map_nil,
    List.dedup_nil, List.dedup_cons_of_not_mem, List.not_mem_nil,
    not_false_iff, List.sum_cons, List.sum_nil]
  have horg : frameOrganicAt
      { numCols := ["demo_age_5_17", "demo_age_17_"],
        rows := [{ state := "S", district := "D",
                   nums := [("demo_age_5_17", 50), ("demo_age_17_", 100)] }] }
      "demographic" ("S", "D") = 130 := by
    show (50 : ℚ) * SIGNAL_WEIGHTS_demographic_youth +
        100 * SIGNAL_WEIGHTS_demographic_adult + 0 = 130
    norm_num [SIGNAL_WEIGHTS_demographic_youth, SIGNAL_WEIGHTS_demographic_adult]
  rw [horg]
  norm_num [raw_updates_of, noise_ratio_of, avg_weight,
    SIGNAL_WEIGHTS_demographic_adult, SIGNAL_WEIGHTS_biometric_adult]
  decide

/-- C8: for a demographic snapshot carrying the expected age-banded
columns, with no biometric input, every output row of
`separate_signal_from_noise` has `geo_key = state + "_" + district` and an
organic signal equal to the sum, over the snapshot's rows of that geo, of
`demo_age_5_17 × 0.6 + demo_age_17_ × 1.0`. -/
theorem demographic_signal_weighted_sum (f : Frame) (r : SignalRow)
    (h5 : "demo_age_5_17" ∈ f.numCols) (h17 : "demo_age_17_" ∈ f.numCols)
    (hr : r ∈ separate_signal_from_noise (some f) none) :
    r.geo_key = r.state ++ "_" ++ r.district ∧
    r.organic_signal =
      ((f.rows.filter fun x => x.state = r.state ∧ x.district = r.district).map
        fun x => getNum x "demo_age_5_17" * (3/5) +
          getNum x "demo_age_17_" * 1).sum := by
  simp only [separate_signal_from_noise, activeFrames, List.append_nil] at hr
  by_cases hlen : 0 < f.rows.length
  · rw [if_pos hlen] at hr
    rw [if_neg (by simp)] at hr
    obtain ⟨p, hp, rfl⟩ := List.mem_map.mp hr
    refine ⟨rfl, ?_⟩
    have hfun : ∀ x : Row, organicRow "demographic" f.numCols x =
        getNum x "demo_age_5_17" * (3/5) + getNum x "demo_age_17_" * 1 := by
      intro x
      rw [organicRow, if_pos rfl, organicRowDemographic, if_pos ⟨h5, h17⟩]
      norm_num [SIGNAL_WEIGHTS_demographic_youth, SIGNAL_WEIGHTS_demographic_adult]
    show ([(f, "demographic")].map fun fd => frameOrganicAt fd.1 fd.2 p).sum = _
    simp only [List.map_cons, List.map_nil, List.sum_cons, List.sum_nil,
      add_zero]
    rw [frameOrganicAt]
    exact congrArg List.sum (List.map_congr_left fun x _ => hfun x)
  · rw [if_neg hlen] at hr
    rw [if_pos rfl] at hr
    exact absurd hr (List.not_mem_nil r)

/-- Witness for `demographic_signal_weighted_sum` on the concrete snapshot
of `separate_signal_eval_example`: 100 adult and 50 youth demographic
updates give organic signal 130. -/
theorem demographic_signal_weighted_sum_witness :
    ({ geo_key := "S_D", state := "S", district := "D", organic_signal := 130,
       raw_updates := 200, noise_ratio := 7/20 } : SignalRow).organic_signal =
      (([({ state := "S", district := "D",
            nums := [("demo_age_5_17", 50), ("demo_age_17_", 100)] } : Row)].filter
          fun x => x.state = "S" ∧ x.district = "D").map
        fun x => getNum x "demo_age_5_17" * (3/5) +
          getNum x "demo_age_17_" * 1).sum :=
  (demographic_signal_weighted_sum
    { numCols := ["demo_age_5_17", "demo_age_17_"],
      rows := [{ state := "S", district := "D",
                 nums := [("demo_age_5_17", 50), ("demo_age_17_", 100)] }] }
    { geo_key := "S_D", state := "S", district := "D", organic_signal := 130,
      raw_updates := 200, noise_ratio := 7/20 }
    (by decide) (by decide)
    (by rw [separate_signal_eval_example]; exact List.mem_singleton_self _)).2

end AadhaarSanket
